import Mathlib

/-!
Verification of the DS1302 RTC driver (DS1302RTC.cpp / DS1302RTC.h).

The development shallowly embeds the register codec, the clock access
API and the bus-level transfer skeleton of the driver:

* the BCD helper macros `bcd2bin`, `bin2bcd_h`, `bin2bcd_l`;
* the 8-byte burst register image `ds1302_struct` (modelled as its
  eight bytes, with the bit-fields of the C struct recovered by
  explicit bit extraction, which also models the anonymous
  `h24`/`h12` union: both views read the same byte);
* `DS1302RTC::read(tmElements_t&)` and `DS1302RTC::write(tmElements_t&)`
  as pure functions between time records and register images, the
  latter also recording the sequence of bus operations it issues;
* the session traces of `clock_burst_read`, `clock_burst_write`,
  `read(int)` and `write(int, uint8_t)` (start / byte exchanges / stop);
* the pin-level trace of `togglewrite(data, release)`.

Machine integers are modelled as `Nat` with explicit truncation where
the C code truncates (assignment to a `k`-bit unsigned bit-field stores
the value modulo `2 ^ k`).  The single place where C `int` arithmetic
can go negative, `tm.Year - (2000 - 1970)` in `write`, is modelled on
`Int` with C truncated division (`Int.tdiv` / `Int.tmod`).
-/

/-- The macro `bcd2bin(h,l) = ((h)*10) + (l))` of DS1302RTC.cpp. -/
def bcd2bin (h l : Nat) : Nat := h * 10 + l

/-- The macro `bin2bcd_h(x) = (x)/10` of DS1302RTC.cpp. -/
def bin2bcd_h (x : Nat) : Nat := x / 10

/-- The macro `bin2bcd_l(x) = (x)%10` of DS1302RTC.cpp. -/
def bin2bcd_l (x : Nat) : Nat := x % 10

/-- `bin2bcd_h` applied to a C `int` value (truncated division). -/
def bin2bcd_h_int (x : Int) : Int := x.tdiv 10

/-- `bin2bcd_l_int` applied to a C `int` value (truncated remainder). -/
def bin2bcd_l_int (x : Int) : Int := x.tmod 10

-- Register addresses of DS1302RTC.cpp.
def DS1302_ENABLE : Nat := 0x8E
def DS1302_TRICKLE : Nat := 0x90
def DS1302_CLOCK_BURST_WRITE : Nat := 0xBE
def DS1302_CLOCK_BURST_READ : Nat := 0xBF

/-- The `tmElements_t` record of the external Time library, as consumed
and produced by the driver.  All fields are `uint8_t` in C; the driver
only ever stores values below 256 in them, so they are modelled as
`Nat`. -/
structure tmElements where
  Second : Nat
  Minute : Nat
  Hour : Nat
  Wday : Nat
  Day : Nat
  Month : Nat
  Year : Nat
deriving Repr, DecidableEq

/-- The 8-byte clock burst register image (`ds1302_struct` in the C
source), modelled as its eight bytes.  The bit-fields of the C struct
are recovered by `extractBits` below; byte 2 carries the overlapping
`h24` / `h12` union. -/
structure ds1302_struct where
  b0 : Nat
  b1 : Nat
  b2 : Nat
  b3 : Nat
  b4 : Nat
  b5 : Nat
  b6 : Nat
  b7 : Nat
deriving Repr, DecidableEq

/-- Bits `lo .. lo+w-1` of a byte: the value of a `w`-bit-wide C
bit-field allocated at bit offset `lo` (LSB-first allocation, as on the
AVR target). -/
def extractBits (b lo w : Nat) : Nat := b / 2 ^ lo % 2 ^ w

-- Bit-field accessors of `ds1302_struct`, byte by byte, following the
-- struct declaration in DS1302RTC.cpp.
def ds1302_struct.Seconds (r : ds1302_struct) : Nat := extractBits r.b0 0 4
def ds1302_struct.Seconds10 (r : ds1302_struct) : Nat := extractBits r.b0 4 3
def ds1302_struct.CH (r : ds1302_struct) : Nat := extractBits r.b0 7 1
def ds1302_struct.Minutes (r : ds1302_struct) : Nat := extractBits r.b1 0 4
def ds1302_struct.Minutes10 (r : ds1302_struct) : Nat := extractBits r.b1 4 3
def ds1302_struct.reserved1 (r : ds1302_struct) : Nat := extractBits r.b1 7 1
def ds1302_struct.h24_Hour (r : ds1302_struct) : Nat := extractBits r.b2 0 4
def ds1302_struct.h24_Hour10 (r : ds1302_struct) : Nat := extractBits r.b2 4 2
def ds1302_struct.reserved2 (r : ds1302_struct) : Nat := extractBits r.b2 6 1
def ds1302_struct.h24_hour_12_24 (r : ds1302_struct) : Nat := extractBits r.b2 7 1
def ds1302_struct.h12_Hour (r : ds1302_struct) : Nat := extractBits r.b2 0 4
def ds1302_struct.h12_Hour10 (r : ds1302_struct) : Nat := extractBits r.b2 4 1
def ds1302_struct.h12_AM_PM (r : ds1302_struct) : Nat := extractBits r.b2 5 1
def ds1302_struct.h12_hour_12_24 (r : ds1302_struct) : Nat := extractBits r.b2 7 1
def ds1302_struct.Date (r : ds1302_struct) : Nat := extractBits r.b3 0 4
def ds1302_struct.Date10 (r : ds1302_struct) : Nat := extractBits r.b3 4 2
def ds1302_struct.reserved3 (r : ds1302_struct) : Nat := extractBits r.b3 6 2
def ds1302_struct.Month (r : ds1302_struct) : Nat := extractBits r.b4 0 4
def ds1302_struct.Month10 (r : ds1302_struct) : Nat := extractBits r.b4 4 1
def ds1302_struct.reserved4 (r : ds1302_struct) : Nat := extractBits r.b4 5 3
def ds1302_struct.Day (r : ds1302_struct) : Nat := extractBits r.b5 0 3
def ds1302_struct.reserved5 (r : ds1302_struct) : Nat := extractBits r.b5 3 5
def ds1302_struct.Year (r : ds1302_struct) : Nat := extractBits r.b6 0 4
def ds1302_struct.Year10 (r : ds1302_struct) : Nat := extractBits r.b6 4 4
def ds1302_struct.reserved6 (r : ds1302_struct) : Nat := extractBits r.b7 0 7
def ds1302_struct.WP (r : ds1302_struct) : Nat := extractBits r.b7 7 1

/-- The burst buffer: the image as the byte sequence transferred by
`clock_burst_read` / `clock_burst_write` (`(uint8_t *) &rtc`). -/
def ds1302_struct.bytes (r : ds1302_struct) : List Nat :=
  [r.b0, r.b1, r.b2, r.b3, r.b4, r.b5, r.b6, r.b7]

/-- `DS1302RTC::read(tmElements_t &tm)`: decode a register image into a
time record, and the returned success flag.  The decode follows the C
statements line by line; in particular the hour assignment

  `tm.Hour = bcd2bin(rtc.h12.Hour10, rtc.h12.Hour) + rtc.h12.AM_PM?12:0;`

parses, by C precedence, as
`(bcd2bin(...) + rtc.h12.AM_PM) ? 12 : 0`, so on the 12-hour branch the
record receives 12 when that sum is nonzero and 0 otherwise. -/
def DS1302RTC.read (rtc : ds1302_struct) : tmElements × Bool :=
  ({ Second := bcd2bin rtc.Seconds10 rtc.Seconds
     Minute := bcd2bin rtc.Minutes10 rtc.Minutes
     Hour :=
       if rtc.h24_hour_12_24 = 0 then
         bcd2bin rtc.h24_Hour10 rtc.h24_Hour
       else
         if bcd2bin rtc.h12_Hour10 rtc.h12_Hour + rtc.h12_AM_PM ≠ 0 then 12 else 0
     Wday := rtc.Day
     Day := bcd2bin rtc.Date10 rtc.Date
     Month := bcd2bin rtc.Month10 rtc.Month
     Year := bcd2bin rtc.Year10 rtc.Year + (2000 - 1970) }, true)

/-- The C `int` value `tm.Year - (2000 - 1970)` computed inside
`DS1302RTC::write` (may be negative when `tm.Year < 30`). -/
def chipYear (y : Nat) : Int := (y : Int) - 30

/-- The register image built by `DS1302RTC::write(tmElements_t &tm)`:
`memset` fills the struct with zeros, then each bit-field assignment
stores its value truncated to the field width.  The bytes below are the
net result, field by field (unassigned bits stay 0):

* b0: `Seconds` (4 bits), `Seconds10` (3 bits), `CH` untouched;
* b1: `Minutes` (4 bits), `Minutes10` (3 bits);
* b2: `h24.hour_12_24 = 0`, `h24.Hour` (4 bits), `h24.Hour10` (2 bits);
* b3: `Date` (4 bits), `Date10` (2 bits);
* b4: `Month` (4 bits), `Month10` (1 bit);
* b5: `Day = bin2bcd_l(tm.Wday)` (3 bits);
* b6: `Year` / `Year10` from `tm.Year - (2000 - 1970)` in `int`
  arithmetic, each nibble stored modulo 16 (C conversion of `int` to an
  unsigned 4-bit bit-field);
* b7: untouched (`reserved6`, `WP` both 0). -/
def writeImage (tm : tmElements) : ds1302_struct :=
  { b0 := bin2bcd_l tm.Second % 16 + bin2bcd_h tm.Second % 8 * 16
    b1 := bin2bcd_l tm.Minute % 16 + bin2bcd_h tm.Minute % 8 * 16
    b2 := bin2bcd_l tm.Hour % 16 + bin2bcd_h tm.Hour % 4 * 16
    b3 := bin2bcd_l tm.Day % 16 + bin2bcd_h tm.Day % 4 * 16
    b4 := bin2bcd_l tm.Month % 16 + bin2bcd_h tm.Month % 2 * 16
    b5 := bin2bcd_l tm.Wday % 8
    b6 := (bin2bcd_l_int (chipYear tm.Year) % 16).toNat
            + (bin2bcd_h_int (chipYear tm.Year) % 16).toNat * 16
    b7 := 0 }

/-- A bus operation issued by `DS1302RTC::write(tmElements_t&)`: a
single-register write (`write(address, data)`) or the 8-byte clock
burst write. -/
inductive BusOp where
  | regWrite : Nat → Nat → BusOp
  | burstWrite : ds1302_struct → BusOp
deriving Repr, DecidableEq

/-- Result of `DS1302RTC::write(tmElements_t &tm)`: the bus operations
in program order, the final value of the caller's record `tm` (the
function body contains no assignment to `tm`), and the return value. -/
structure WriteResult where
  ops : List BusOp
  tmOut : tmElements
  ret : Bool
deriving Repr, DecidableEq

/-- `DS1302RTC::write(tmElements_t &tm)`: clears the write-protect
register, disables the trickle charger, builds the zero-filled image
and burst-writes it, returning true. -/
def DS1302RTC.write (tm : tmElements) : WriteResult :=
  { ops := [BusOp.regWrite DS1302_ENABLE 0,
            BusOp.regWrite DS1302_TRICKLE 0x00,
            BusOp.burstWrite (writeImage tm)]
    tmOut := tm
    ret := true }

/-- `DS1302RTC::set(time_t t)`: breaks `t` into a record with the
external Time library function `breakTime` and returns `write(tm)`.
Modelled as a function of the record `breakTime` produces. -/
def DS1302RTC.set (tm : tmElements) : Bool := (DS1302RTC.write tm).ret

/-- Session-level events of one bus transfer: `start()`, `stop()`, a
byte written with `togglewrite(data, release)`, a byte read with
`toggleread()`. -/
inductive SessEv where
  | start : SessEv
  | stop : SessEv
  | writeByte : Nat → Bool → SessEv
  | readByte : SessEv
deriving Repr, DecidableEq

/-- Whether a session event is a `start()` or a `stop()`. -/
def startStop : SessEv → Bool
  | SessEv.start => true
  | SessEv.stop => true
  | _ => false

/-- `bitSet(address, DS1302_READBIT)`: set bit 0. -/
def bitSet0 (a : Nat) : Nat := a ||| 1

/-- `bitClear(address, DS1302_READBIT)`: clear bit 0. -/
def bitClear0 (a : Nat) : Nat := a / 2 * 2

/-- Session trace of `DS1302RTC::clock_burst_read`: start, the
burst-read command byte written with the line released, eight byte
reads, stop. -/
def clock_burst_read_trace : List SessEv :=
  SessEv.start
    :: SessEv.writeByte DS1302_CLOCK_BURST_READ true
    :: (List.replicate 8 SessEv.readByte ++ [SessEv.stop])

/-- Session trace of `DS1302RTC::clock_burst_write`: start, the
burst-write command byte (no release), the eight image bytes (no
release), stop. -/
def clock_burst_write_trace (r : ds1302_struct) : List SessEv :=
  SessEv.start
    :: SessEv.writeByte DS1302_CLOCK_BURST_WRITE false
    :: (r.bytes.map (fun b => SessEv.writeByte b false) ++ [SessEv.stop])

/-- Session trace of `uint8_t DS1302RTC::read(int address)`: the read
bit is set in the address, then start, address byte (released), one
byte read, stop. -/
def readAddrTrace (address : Nat) : List SessEv :=
  [SessEv.start, SessEv.writeByte (bitSet0 address) true,
   SessEv.readByte, SessEv.stop]

/-- Session trace of `void DS1302RTC::write(int address, uint8_t data)`:
the read bit is cleared in the address, then start, address byte, data
byte (neither released), stop. -/
def writeAddrTrace (address data : Nat) : List SessEv :=
  [SessEv.start, SessEv.writeByte (bitClear0 address) false,
   SessEv.writeByte data false, SessEv.stop]

/-- A transfer trace is well framed: exactly one `start()`, first, and
exactly one `stop()`, last, with only byte exchanges between them. -/
def wellFramed (t : List SessEv) : Prop :=
  ∃ mid, t = SessEv.start :: (mid ++ [SessEv.stop])
    ∧ ∀ e ∈ mid, startStop e = false

/-- Pin-level events of `togglewrite`: drive the data line to a bit
value, raise the clock line, lower the clock line, switch the data line
to input direction. -/
inductive PinEv where
  | driveData : Bool → PinEv
  | clkHigh : PinEv
  | clkLow : PinEv
  | releaseData : PinEv
deriving Repr, DecidableEq

/-- Pin-level trace of `DS1302RTC::togglewrite(uint8_t data, uint8_t
release)`: for `i = 0 .. 7`, drive the data line to bit `i` of `data`,
raise the clock; on the last bit with `release` set, switch the data
line to input instead of lowering the clock, otherwise lower the
clock. -/
def togglewrite (data : Nat) (release : Bool) : List PinEv :=
  (List.range 8).flatMap (fun i =>
    [PinEv.driveData (data.testBit i), PinEv.clkHigh]
      ++ (if release && i == 7 then [PinEv.releaseData] else [PinEv.clkLow]))

/-- The level of the clock line after executing a pin-event trace,
starting from level `init` (`true` = high). -/
def clkLevelAfter (t : List PinEv) (init : Bool) : Bool :=
  t.foldl (fun s e =>
    match e with
    | PinEv.clkHigh => true
    | PinEv.clkLow => false
    | _ => s) init

/-- The concrete time record of the specification scenario:
{sec=45, min=30, hour=23, wday=3, day=15, month=6, year=53}. -/
def tm53 : tmElements :=
  { Second := 45, Minute := 30, Hour := 23, Wday := 3, Day := 15,
    Month := 6, Year := 53 }

/-- A register image whose hour byte 0xA2 selects the 12-hour layout
(mode bit 1) with the AM/PM bit set and 12-hour value 02. -/
def img12hPm2 : ds1302_struct :=
  { b0 := 0, b1 := 0, b2 := 0xA2, b3 := 0, b4 := 0, b5 := 0, b6 := 0, b7 := 0 }

/-- A register image whose year byte holds BCD tens=5, units=3. -/
def imgYear53 : ds1302_struct :=
  { b0 := 0, b1 := 0, b2 := 0, b3 := 0, b4 := 0, b5 := 0, b6 := 0x53, b7 := 0 }

/-- A register image whose year byte holds BCD tens=2, units=3. -/
def imgYear23 : ds1302_struct :=
  { b0 := 0, b1 := 0, b2 := 0, b3 := 0, b4 := 0, b5 := 0, b6 := 0x23, b7 := 0 }

/-- A register image whose seconds byte 0x60 holds seconds-tens 6,
seconds-units 0. -/
def imgSec60 : ds1302_struct :=
  { b0 := 0x60, b1 := 0, b2 := 0, b3 := 0, b4 := 0, b5 := 0, b6 := 0, b7 := 0 }

/-- Claim C6: for every integer in the 0-99 range of a BCD field,
splitting it with `bin2bcd_h` / `bin2bcd_l` and recombining with
`bcd2bin` is the identity. -/
theorem C6_bcd_round_trip (v : Nat) (h : v ≤ 99) :
    bcd2bin (bin2bcd_h v) (bin2bcd_l v) = v := by
  simp only [bcd2bin, bin2bcd_h, bin2bcd_l]
  omega

theorem C6_bcd_round_trip_witness :
    45 ≤ 99 ∧ bcd2bin (bin2bcd_h 45) (bin2bcd_l 45) = 45 :=
  ⟨by decide, C6_bcd_round_trip 45 (by decide)⟩

/-- Claim C3: `set`, `read` and `write` return true on every input;
no input makes any of them report failure. -/
theorem C3_always_success :
    (∀ tm : tmElements, DS1302RTC.set tm = true)
      ∧ (∀ rtc : ds1302_struct, (DS1302RTC.read rtc).2 = true)
      ∧ (∀ tm : tmElements, (DS1302RTC.write tm).ret = true) :=
  ⟨fun _ => rfl, fun _ => rfl, fun _ => rfl⟩

/-- Claim C10: `write(tmElements_t &tm)` never modifies the caller's
record: the record after the call equals the record before it, for
every input. -/
theorem C10_write_preserves_record (tm : tmElements) :
    (DS1302RTC.write tm).tmOut = tm := rfl

/-- Claim C1 (code_bug evaluation): on the register image with hour
byte 0xA2 (12-hour mode bit set, AM/PM bit set, BCD 12-hour value 02)
the specified decode is hour12 + 12 = 14, but the decode of the source
line `tm.Hour = bcd2bin(...) + rtc.h12.AM_PM?12:0;` assigns 12. -/
theorem C1_hour_layout_code_bug :
    ds1302_struct.h12_hour_12_24 img12hPm2 = 1
      ∧ ds1302_struct.h12_AM_PM img12hPm2 = 1
      ∧ bcd2bin (ds1302_struct.h12_Hour10 img12hPm2) (ds1302_struct.h12_Hour img12hPm2) + 12 = 14
      ∧ (DS1302RTC.read img12hPm2).1.Hour = 12 := by decide

/-- Claim C9: `read` performs no range validation: the image whose
seconds byte is 0x60 (seconds-tens field 6) still yields true and a
seconds value of 60, greater than 59. -/
theorem C9_no_range_validation :
    ds1302_struct.Seconds10 imgSec60 = 6
      ∧ (DS1302RTC.read imgSec60).2 = true
      ∧ 59 < (DS1302RTC.read imgSec60).1.Second := by decide

/-- Claim C7: every transfer (clock burst read, clock burst write,
single-register read, single-register write) is well framed: exactly
one `start()`, first, exactly one `stop()`, last, with only byte
exchanges between them, so no two sessions overlap. -/
theorem C7_session_framing :
    wellFramed clock_burst_read_trace
      ∧ (∀ r : ds1302_struct, wellFramed (clock_burst_write_trace r))
      ∧ (∀ a : Nat, wellFramed (readAddrTrace a))
      ∧ (∀ a d : Nat, wellFramed (writeAddrTrace a d)) := by
  refine ⟨⟨SessEv.writeByte DS1302_CLOCK_BURST_READ true
            :: List.replicate 8 SessEv.readByte, rfl, ?_⟩,
          fun r => ⟨SessEv.writeByte DS1302_CLOCK_BURST_WRITE false
            :: r.bytes.map (fun b => SessEv.writeByte b false), rfl, ?_⟩,
          fun a => ⟨[SessEv.writeByte (bitSet0 a) true, SessEv.readByte], rfl, ?_⟩,
          fun a d => ⟨[SessEv.writeByte (bitClear0 a) false,
            SessEv.writeByte d false], rfl, ?_⟩⟩
  · intro e he
    rcases List.mem_cons.mp he with rfl | hr
    · rfl
    · rw [List.eq_of_mem_replicate hr]
      rfl
  · intro e he
    rcases List.mem_cons.mp he with rfl | hm
    · rfl
    · obtain ⟨b, _, rfl⟩ := List.mem_map.mp hm
      rfl
  · intro e he
    rcases List.mem_cons.mp he with rfl | he
    · rfl
    · rcases List.mem_cons.mp he with rfl | he
      · rfl
      · cases he
  · intro e he
    rcases List.mem_cons.mp he with rfl | he
    · rfl
    · rcases List.mem_cons.mp he with rfl | he
      · rfl
      · cases he

/-- Claim C8: `togglewrite(data, release)` emits the 8 bits of `data`
least-significant bit first, each driven on the data line before the
clock rises; with `release` set the 8th rising edge is followed by
switching the data line to input instead of lowering the clock, leaving
the clock high; with `release` clear the clock is lowered after every
bit, leaving it low. -/
theorem C8_togglewrite_bit_order (data : Nat) (release : Bool) :
    togglewrite data release =
      [PinEv.driveData (data.testBit 0), PinEv.clkHigh, PinEv.clkLow,
       PinEv.driveData (data.testBit 1), PinEv.clkHigh, PinEv.clkLow,
       PinEv.driveData (data.testBit 2), PinEv.clkHigh, PinEv.clkLow,
       PinEv.driveData (data.testBit 3), PinEv.clkHigh, PinEv.clkLow,
       PinEv.driveData (data.testBit 4), PinEv.clkHigh, PinEv.clkLow,
       PinEv.driveData (data.testBit 5), PinEv.clkHigh, PinEv.clkLow,
       PinEv.driveData (data.testBit 6), PinEv.clkHigh, PinEv.clkLow,
       PinEv.driveData (data.testBit 7), PinEv.clkHigh]
        ++ (if release then [PinEv.releaseData] else [PinEv.clkLow])
      ∧ ∀ init : Bool, clkLevelAfter (togglewrite data release) init = release := by
  cases release <;> exact ⟨rfl, fun _ => rfl⟩

/-- Claim C4: `write(tm)` issues the write-protect clear and the
trickle-charge clear, in that order, strictly before the burst write,
and the transferred image has every reserved or unused bit 0 and the
12/24 mode bit 0, for every input record. -/
theorem C4_write_protocol (tm : tmElements) :
    (DS1302RTC.write tm).ops
        = [BusOp.regWrite DS1302_ENABLE 0, BusOp.regWrite DS1302_TRICKLE 0,
           BusOp.burstWrite (writeImage tm)]
      ∧ ds1302_struct.CH (writeImage tm) = 0
      ∧ ds1302_struct.reserved1 (writeImage tm) = 0
      ∧ ds1302_struct.reserved2 (writeImage tm) = 0
      ∧ ds1302_struct.h24_hour_12_24 (writeImage tm) = 0
      ∧ ds1302_struct.reserved3 (writeImage tm) = 0
      ∧ ds1302_struct.reserved4 (writeImage tm) = 0
      ∧ ds1302_struct.reserved5 (writeImage tm) = 0
      ∧ ds1302_struct.reserved6 (writeImage tm) = 0
      ∧ ds1302_struct.WP (writeImage tm) = 0 := by
  refine ⟨rfl, ?_⟩
  simp only [ds1302_struct.CH, ds1302_struct.reserved1, ds1302_struct.reserved2,
    ds1302_struct.h24_hour_12_24, ds1302_struct.reserved3, ds1302_struct.reserved4,
    ds1302_struct.reserved5, ds1302_struct.reserved6, ds1302_struct.WP,
    writeImage, extractBits, bin2bcd_l, bin2bcd_h, Nat.reducePow, and_true, true_and]
  omega

/-- For a record year in the 30-129 range, the year byte built by
`write` holds the low and high BCD digits of `year - 30`. -/
theorem writeImage_b6_spec (y : Nat) (hy1 : 30 ≤ y) (hy2 : y ≤ 129) :
    (bin2bcd_l_int (chipYear y) % 16).toNat
        + (bin2bcd_h_int (chipYear y) % 16).toNat * 16
      = (y - 30) % 10 + (y - 30) / 10 * 16 := by
  simp only [bin2bcd_l_int, bin2bcd_h_int, chipYear]
  rw [Int.tmod_eq_emod (by omega) (by decide), Int.tdiv_eq_ediv (by omega) (by decide)]
  omega

/-- Claim C2: encoding a time record whose fields are all in their
valid ranges with the codec of `write` and decoding the image with the
codec of `read` reproduces every field. -/
theorem C2_burst_round_trip (tm : tmElements)
    (hs : tm.Second ≤ 59) (hmi : tm.Minute ≤ 59) (hh : tm.Hour ≤ 23)
    (hw1 : 1 ≤ tm.Wday) (hw2 : tm.Wday ≤ 7)
    (hd1 : 1 ≤ tm.Day) (hd2 : tm.Day ≤ 31)
    (hm1 : 1 ≤ tm.Month) (hm2 : tm.Month ≤ 12)
    (hy1 : 30 ≤ tm.Year) (hy2 : tm.Year ≤ 129) :
    (DS1302RTC.read (writeImage tm)).1 = tm := by
  obtain ⟨s, mi, h, w, d, mo, y⟩ := tm
  simp only at hs hmi hh hw1 hw2 hd1 hd2 hm1 hm2 hy1 hy2
  have hb6 := writeImage_b6_spec y hy1 hy2
  have hmode : (h % 10 % 16 + h / 10 % 4 * 16) / 128 % 2 = 0 := by
    have hlt : h % 10 % 16 + h / 10 % 4 * 16 < 128 := by omega
    rw [Nat.div_eq_of_lt hlt]
  simp only [DS1302RTC.read, writeImage, ds1302_struct.Seconds,
    ds1302_struct.Seconds10, ds1302_struct.Minutes, ds1302_struct.Minutes10,
    ds1302_struct.h24_hour_12_24, ds1302_struct.h24_Hour, ds1302_struct.h24_Hour10,
    ds1302_struct.h12_Hour, ds1302_struct.h12_Hour10, ds1302_struct.h12_AM_PM,
    ds1302_struct.Day, ds1302_struct.Date, ds1302_struct.Date10,
    ds1302_struct.Month, ds1302_struct.Month10, ds1302_struct.Year,
    ds1302_struct.Year10, extractBits, bcd2bin, bin2bcd_l, bin2bcd_h,
    Nat.reducePow, hb6, tmElements.mk.injEq]
  rw [if_pos hmode]
  omega

theorem C2_burst_round_trip_witness :
    tm53.Second ≤ 59 ∧ tm53.Minute ≤ 59 ∧ tm53.Hour ≤ 23
      ∧ 1 ≤ tm53.Wday ∧ tm53.Wday ≤ 7 ∧ 1 ≤ tm53.Day ∧ tm53.Day ≤ 31
      ∧ 1 ≤ tm53.Month ∧ tm53.Month ≤ 12 ∧ 30 ≤ tm53.Year ∧ tm53.Year ≤ 129
      ∧ (DS1302RTC.read (writeImage tm53)).1 = tm53 :=
  ⟨by decide, by decide, by decide, by decide, by decide, by decide, by decide,
   by decide, by decide, by decide, by decide,
   C2_burst_round_trip tm53 (by decide) (by decide) (by decide) (by decide)
     (by decide) (by decide) (by decide) (by decide) (by decide) (by decide)
     (by decide)⟩

/-- Claim C5 (counterexample): the claimed concrete values are false on
the code: encoding raw year 53 stores BCD tens 2 (not 5), and decoding
BCD tens=5, units=3 yields raw year 83 (not 53). -/
theorem C5_year_codec_counterexample :
    ds1302_struct.Year10 (writeImage tm53) = 2
      ∧ ¬ ds1302_struct.Year10 (writeImage tm53) = 5
      ∧ (DS1302RTC.read imgYear53).1.Year = 83
      ∧ ¬ (DS1302RTC.read imgYear53).1.Year = 53 := by decide

/-- Claim C5 (amended): the year codec applies a consistent offset of
plus 30 on read and minus 30 on write: `read` returns the BCD-decoded
chip year plus 30, `write`
stores the BCD digits of the record year minus 30; encoding raw year 53
yields BCD tens=2, units=3, and decoding BCD tens=2, units=3 yields raw
year 53. -/
theorem C5_year_codec (rtc : ds1302_struct) (tm : tmElements)
    (hy1 : 30 ≤ tm.Year) (hy2 : tm.Year ≤ 129) :
    (DS1302RTC.read rtc).1.Year
        = bcd2bin (ds1302_struct.Year10 rtc) (ds1302_struct.Year rtc) + 30
      ∧ ds1302_struct.Year (writeImage tm) = bin2bcd_l (tm.Year - 30)
      ∧ ds1302_struct.Year10 (writeImage tm) = bin2bcd_h (tm.Year - 30)
      ∧ ds1302_struct.Year10 (writeImage tm53) = 2
      ∧ ds1302_struct.Year (writeImage tm53) = 3
      ∧ (DS1302RTC.read imgYear23).1.Year = 53 := by
  have hb6 := writeImage_b6_spec tm.Year hy1 hy2
  refine ⟨rfl, ?_, ?_, by decide, by decide, by decide⟩
  · simp only [ds1302_struct.Year, writeImage, extractBits, bin2bcd_l,
      Nat.reducePow, hb6]
    omega
  · simp only [ds1302_struct.Year10, writeImage, extractBits, bin2bcd_h,
      Nat.reducePow, hb6]
    omega

theorem C5_year_codec_witness :
    30 ≤ tm53.Year ∧ tm53.Year ≤ 129
      ∧ ds1302_struct.Year (writeImage tm53) = bin2bcd_l (tm53.Year - 30) :=
  ⟨by decide, by decide,
   (C5_year_codec imgYear23 tm53 (by decide) (by decide)).2.1⟩
